import Mathlib

/-!
Verification development for `src/ctapipe/image/muon/muon_reco_functions.py`.

The module is embedded shallowly:

* numeric pixel data (coordinates, charges, fit results) is modelled over `ℝ`,
  matching the exact-real reading of the numpy code (`np.sqrt`, `np.rad2deg`);
* the static per-telescope-type cut table is modelled over `ℚ` (all its entries
  are decimal literals), so that facts about it are decidable;
* boolean pixel masks are `List Bool`, with numpy elementwise product on
  boolean arrays rendered as pointwise `&&` (`List.zipWith`);
* fallible Python code is rendered in `Except PyErr`; an uncaught exception in
  the per-telescope loop aborts the whole call, exactly as in Python;
* external collaborators that the source imports from other modules
  (`tailcuts_clean`, `MuonRingFitter`, `MuonLineIntegrate.fit_muon`,
  `ring_containment`, the astropy coordinate transform) are parameters of the
  embedding, bundled in `Externals`; the two pixel-counting helpers from
  `ctapipe.image.muon.features` are modelled from the spec (their source is not
  part of this repository snapshot).
-/

namespace MuonRec

/-- Python runtime errors that the embedded code can raise. -/
inductive PyErr where
  | keyError (key : String)
  | typeError (msg : String)
  | nameError (name : String)
deriving DecidableEq

/-- Result container of a single circle fit (MuonRingParameter geometry fields). -/
structure RingFit where
  ring_center_x : ℝ
  ring_center_y : ℝ
  ring_radius : ℝ

/-- The picture/boundary threshold pair, after the source replaces the
`tail_cuts` tuple with a descriptive dict (source lines 92-97). -/
structure TailCuts where
  picture_thresh : ℚ
  boundary_thresh : ℚ
deriving DecidableEq

/-- One entry of the per-telescope-type cut table (one of the dicts built by
`generate_muon_cuts_by_telescope_name`, source lines 56-99). -/
structure MuonCut where
  Name : String
  tail_cuts : TailCuts
  Impact : ℚ × ℚ
  RingWidth : ℚ × ℚ
  total_pix : ℚ
  min_pix : ℚ
  CamRad : ℚ
  SecRad : ℚ
  SCT : Bool
  AngPixW : ℚ
  HoleRad : ℚ
deriving DecidableEq

/-- Source line 57: the `names` list. -/
def names : List String :=
  ["LST_LST_LSTCam", "MST_MST_NectarCam", "MST_MST_FlashCam", "MST_SCT_SCTCam",
   "SST_1M_DigiCam", "SST_GCT_CHEC", "SST_ASTRI_ASTRICam", "SST_ASTRI_CHEC"]

/-- Source line 59: the `tail_cuts` list of (picture, boundary) pairs. -/
def tail_cuts : List (ℚ × ℚ) :=
  [(5, 7), (5, 7), (10, 12), (5, 7), (5, 7), (5, 7), (5, 7), (5, 7)]

/-- Source line 61: the `impact` list, windows in units of mirror radii
(decimals 0.2, 0.9, 0.1, 0.95 written as exact rationals). -/
def impact : List (ℚ × ℚ) :=
  [(1/5, 9/10), (1/10, 19/20), (1/5, 9/10), (1/5, 9/10),
   (1/10, 19/20), (1/10, 19/20), (1/10, 19/20), (1/10, 19/20)]

/-- Source line 63: the `ringwidth` list, windows in degrees. -/
def ringwidth : List (ℚ × ℚ) :=
  [(1/25, 2/25), (1/50, 1/10), (1/100, 1/10), (1/50, 1/10),
   (1/100, 1/2), (1/50, 1/5), (1/50, 1/5), (1/50, 1/5)]

/-- Source line 65: the `total_pix` list. -/
def total_pix : List ℚ := [1855, 1855, 1764, 11328, 1296, 2048, 2368, 2048]

/-- Source line 67: the `min_pix` list. -/
def min_pix : List ℚ := [148, 148, 141, 680, 104, 164, 142, 164]

/-- Source line 69: the `ang_pixel_width` list, in degrees.  It has NINE
entries (0.1, 0.2, 0.18, 0.067, 0.24, 0.2, 0.17, 0.2, 0.163) while every other
list has eight. -/
def ang_pixel_width : List ℚ :=
  [1/10, 1/5, 9/50, 67/1000, 6/25, 1/5, 17/100, 1/5, 163/1000]

/-- Source line 71: the `hole_rad` list, in meters. -/
def hole_rad : List ℚ :=
  [308/1000, 244/1000, 244/1000, 43866/10000, 160/1000, 130/1000, 171/1000, 171/1000]

/-- Source line 74: the `cam_rad` list, in degrees. -/
def cam_rad : List ℚ :=
  [226/100, 396/100, 387/100, 4, 445/100, 286/100, 525/100, 286/100]

/-- Source line 76: the `sec_rad` list, in meters. -/
def sec_rad : List ℚ := [0, 0, 0, 27/10, 0, 1, 18/10, 18/10]

/-- Source line 78: the `sct` list of flags. -/
def sct : List Bool := [false, false, false, true, false, true, true, true]

/-- Source lines 86-89: the list-of-dicts construction.  The Python code zips
the eleven parallel value lists (dict insertion order: Name, tail_cuts, Impact,
RingWidth, total_pix, min_pix, CamRad, SecRad, SCT, AngPixW, HoleRad); `zip`
stops at the shortest list.  `List.zip` has the same truncating semantics.
The tail-cuts tuple-to-dict replacement of lines 92-97 is the `TailCuts`
construction. -/
def muon_cuts_list : List MuonCut :=
  (names.zip (tail_cuts.zip (impact.zip (ringwidth.zip (total_pix.zip
    (min_pix.zip (cam_rad.zip (sec_rad.zip (sct.zip
      (ang_pixel_width.zip hole_rad)))))))))).map
    (fun v =>
      { Name := v.1
        tail_cuts := { picture_thresh := v.2.1.1, boundary_thresh := v.2.1.2 }
        Impact := v.2.2.1
        RingWidth := v.2.2.2.1
        total_pix := v.2.2.2.2.1
        min_pix := v.2.2.2.2.2.1
        CamRad := v.2.2.2.2.2.2.1
        SecRad := v.2.2.2.2.2.2.2.1
        SCT := v.2.2.2.2.2.2.2.2.1
        AngPixW := v.2.2.2.2.2.2.2.2.2.1
        HoleRad := v.2.2.2.2.2.2.2.2.2.2 })

/-- Source lines 56-99, `generate_muon_cuts_by_telescope_name`: the table keyed
by telescope-type name (`{mc['Name']: mc for mc in ...}`), as an association
list in construction order (all names are distinct). -/
def generate_muon_cuts_by_telescope_name : List (String × MuonCut) :=
  muon_cuts_list.map (fun mc => (mc.Name, mc))

/-- Source line 24: `np.rad2deg` on an exact real, the fast branch's
radian-to-degree conversion. -/
noncomputable def rad2deg (v : ℝ) : ℝ := v * (180 / Real.pi)

/-- Source lines 22-36, `transform_pixel_coords_from_meter_to_deg`.  The fast
branch (lines 23-25) computes `delta_alt` from `x` and `delta_az` from `y` and
returns the pair `(delta_az, delta_alt)`.  The exact branch (lines 27-34) goes
through the astropy `SkyCoord`/`TelescopeFrame` machinery, an external
collaborator, supplied here as the parameter `exact_mode`. -/
noncomputable def transform_pixel_coords_from_meter_to_deg (x y : List ℝ) (foc_len : ℝ)
    (fast_but_bad : Bool) (exact_mode : List ℝ → List ℝ → ℝ → List ℝ × List ℝ) :
    List ℝ × List ℝ :=
  if fast_but_bad then
    let delta_alt := x.map (fun v => rad2deg (v / foc_len))
    let delta_az := y.map (fun v => rad2deg (v / foc_len))
    (delta_az, delta_alt)
  else
    exact_mode x y foc_len

/-- Source lines 38-43, `calc_nom_dist`: distance of the fitted ring center
from the camera center. -/
noncomputable def calc_nom_dist (ring_fit : RingFit) : ℝ :=
  Real.sqrt (ring_fit.ring_center_x ^ 2 + ring_fit.ring_center_y ^ 2)

/-- Source lines 45-53, `calc_dist_and_ring_dist`: per-pixel distance from the
fitted center, its deviation from the fitted radius, and the inlier criterion
`ring_dist < ring_radius * parameter`.  The Python signature defaults
`parameter` to 0.4; here the call sites pass that default explicitly. -/
noncomputable def calc_dist_and_ring_dist (x y : List ℝ) (ring_fit : RingFit)
    (parameter : ℝ) : List ℝ × List ℝ × List Bool :=
  let dist := List.zipWith
    (fun xi yi =>
      Real.sqrt ((xi - ring_fit.ring_center_x) ^ 2 + (yi - ring_fit.ring_center_y) ^ 2))
    x y
  let ring_dist := dist.map (fun d => |d - ring_fit.ring_radius|)
  let dist_mask := ring_dist.map (fun rd => decide (rd < ring_fit.ring_radius * parameter))
  (dist, ring_dist, dist_mask)

/-- The type of the external `MuonRingFitter(fit_method="chaudhuri_kundu")`
call: `muon_ring_fit(x, y, image, mask) -> ring_fit`. -/
abbrev FitFn := List ℝ → List ℝ → List ℝ → List Bool → RingFit

/-- The inlier mask after the first tightening step of `do_multi_ring_fit`
(source lines 139-141): the cleaning mask ANDed with the criterion computed
from the first fit.  Numpy's elementwise product of boolean arrays is the
pointwise `&&`. -/
noncomputable def multi_fit_round1_mask (muon_ring_fit : FitFn)
    (x y image : List ℝ) (clean_mask : List Bool) : List Bool :=
  List.zipWith (· && ·) clean_mask
    (calc_dist_and_ring_dist x y (muon_ring_fit x y image clean_mask) 0.4).2.2

/-- The inlier mask after the second tightening step (source lines 143-145);
this is the mask the third fit is run on. -/
noncomputable def multi_fit_round2_mask (muon_ring_fit : FitFn)
    (x y image : List ℝ) (clean_mask : List Bool) : List Bool :=
  let m1 := multi_fit_round1_mask muon_ring_fit x y image clean_mask
  List.zipWith (· && ·) m1
    (calc_dist_and_ring_dist x y (muon_ring_fit x y image m1) 0.4).2.2

/-- The inlier mask after the third tightening step (source lines 147-149),
computed from the third fit's geometry after that fit has already run. -/
noncomputable def multi_fit_round3_mask (muon_ring_fit : FitFn)
    (x y image : List ℝ) (clean_mask : List Bool) : List Bool :=
  let m2 := multi_fit_round2_mask muon_ring_fit x y image clean_mask
  List.zipWith (· && ·) m2
    (calc_dist_and_ring_dist x y (muon_ring_fit x y image m2) 0.4).2.2

/-- Source lines 137-151, `do_multi_ring_fit`: three fits, each followed by a
mask-tightening step; returns the third fit and the mask as tightened after
that third fit. -/
noncomputable def do_multi_ring_fit (muon_ring_fit : FitFn)
    (x y image : List ℝ) (clean_mask : List Bool) : RingFit × List Bool :=
  -- 1st fit
  let ring_fit := muon_ring_fit x y image clean_mask
  let dist_mask := (calc_dist_and_ring_dist x y ring_fit 0.4).2.2
  let mask := List.zipWith (· && ·) clean_mask dist_mask
  -- 2nd fit
  let ring_fit := muon_ring_fit x y image mask
  let dist_mask := (calc_dist_and_ring_dist x y ring_fit 0.4).2.2
  let mask := List.zipWith (· && ·) mask dist_mask
  -- 3rd fit
  let ring_fit := muon_ring_fit x y image mask
  let dist_mask := (calc_dist_and_ring_dist x y ring_fit 0.4).2.2
  let mask := List.zipWith (· && ·) mask dist_mask
  (ring_fit, mask)

/-- Modelled from the spec: `npix_above_threshold` from
`ctapipe.image.muon.features` (not under src/) — the count of pixels whose
charge exceeds the threshold ("count of masked pixels above the picture
threshold"). -/
noncomputable def npix_above_threshold (pix : List ℝ) (thresh : ℝ) : ℕ :=
  (pix.filter (fun v => decide (thresh < v))).length

/-- Modelled from the spec: `npix_composing_ring` from
`ctapipe.image.muon.features` (not under src/) — the "total nonzero masked
pixel count". -/
noncomputable def npix_composing_ring (pix : List ℝ) : ℕ :=
  (pix.filter (fun v => decide (v ≠ 0))).length

/-- Source lines 101-134, `is_ring_good`: the ring-good gate.  Its radius
window is the conjunction `ring_radius > 1.*u.deg and ring_radius < 1.5*u.deg`
(lines 132-133), strict at both edges. -/
noncomputable def is_ring_good (cleaned_image : List ℝ) (ring_fit : RingFit)
    (muon_cut : MuonCut) : Bool :=
  decide ((npix_above_threshold cleaned_image muon_cut.tail_cuts.picture_thresh : ℝ) >
      0.1 * (muon_cut.min_pix : ℝ)) &&
  decide ((npix_composing_ring cleaned_image : ℝ) > (muon_cut.min_pix : ℝ)) &&
  decide (calc_nom_dist ring_fit < (muon_cut.CamRad : ℝ)) &&
  decide (ring_fit.ring_radius > 1) &&
  decide (ring_fit.ring_radius < 1.5)

/-- Source lines 279-295: the muon-found gate, `all(conditions)` over the four
comparisons of `impact_parameter` against `Impact * mirror_radius` and
`ring_width` against `RingWidth`, all of them strict. -/
noncomputable def muon_found (impact_parameter ring_width mirror_radius : ℝ)
    (muon_cut : MuonCut) : Bool :=
  decide (impact_parameter < (muon_cut.Impact.2 : ℝ) * mirror_radius) &&
  decide (impact_parameter > (muon_cut.Impact.1 : ℝ) * mirror_radius) &&
  decide (ring_width < (muon_cut.RingWidth.2 : ℝ)) &&
  decide (ring_width > (muon_cut.RingWidth.1 : ℝ))

/-- Per-telescope input data of one event: the fields of `event` that
`analyze_muon_event` reads for a telescope id (source lines 224-231). -/
structure TelescopeData where
  tel_id : ℕ
  name : String
  foc_len : ℝ
  mirror_radius : ℝ
  pix_x : List ℝ
  pix_y : List ℝ
  image : List ℝ

/-- One event: its ids and the telescopes with data, in iteration order. -/
structure Event where
  obs_id : ℕ
  event_id : ℕ
  tels : List TelescopeData

/-- Result container of the external `MuonLineIntegrate.fit_muon` call (the
fields of it that the source reads afterwards). -/
structure IntensityFit where
  impact_parameter : ℝ
  ring_width : ℝ

/-- The external collaborators imported by the source from other modules, as
parameters of the embedding. -/
structure Externals where
  /-- astropy exact reprojection, the non-fast branch of the projector. -/
  exact_mode : List ℝ → List ℝ → ℝ → List ℝ × List ℝ
  /-- `tailcuts_clean(geom, image, picture_thresh, boundary_thresh)`; the
  camera geometry is part of the telescope description. -/
  tailcuts_clean : TelescopeData → List ℝ → ℚ → ℚ → List Bool
  /-- `MuonRingFitter(fit_method="chaudhuri_kundu")` applied to
  `(x, y, image, mask)`. -/
  muon_ring_fit : FitFn
  /-- `ring_containment(radius, cam_rad, center_x, center_y)`. -/
  ring_containment : ℝ → ℚ → ℝ → ℝ → ℝ
  /-- `ctel.fit_muon(center_x, center_y, radius, x[mask], y[mask],
  image[mask])`. -/
  fit_muon : ℝ → ℝ → ℝ → List ℝ → List ℝ → List ℝ → IntensityFit

/-- The per-telescope output record appended to the event's output list
(source lines 266-296): the ring fit with its ids and containment, the echoed
mirror radius, and — only when the ring-good gate passed — the intensity
result and the muon-found flag. -/
structure TelRecord where
  MuonRingParams : RingFit
  tel_id : ℕ
  obs_id : ℕ
  event_id : ℕ
  ring_containment : ℝ
  mirror_radius : ℝ
  MuonIntensityParams : Option IntensityFit
  muon_found : Option Bool

/-- Python positional-call semantics: a call that supplies fewer positional
arguments than the callee's number of required parameters raises `TypeError`
before the callee's body runs. -/
def py_call {α : Type} (required_params given_args : ℕ) (body : Except PyErr α) :
    Except PyErr α :=
  if given_args < required_params then
    .error (.typeError "missing required positional argument")
  else
    body

/-- The source's `calc_muon_intensity_parameters` (lines 153-204) has six
required parameters: `x, y, image, mask, ring_fit, ctel` — none has a
default. -/
def calc_muon_intensity_parameters_nparams : ℕ := 6

/-- Its only call site, `analyze_muon_event` line 272-274, passes five
positional arguments: `x, y, image, mask, ring_fit`. -/
def analyze_muon_event_intensity_call_nargs : ℕ := 5

/-- Numpy boolean indexing `xs[mask]`: the elements of `xs` at the positions
where `mask` is true. -/
def mask_select (xs : List ℝ) (mask : List Bool) : List ℝ :=
  ((xs.zip mask).filter (fun p => p.2)).map (fun p => p.1)

/-- Source lines 153-204, the body of `calc_muon_intensity_parameters`.  The
external calls (`ctel.fit_muon`, `ring_completeness`) are abstracted, but the
body's own control flow is kept: after the external computations, line 196
evaluates `ring_dist`, a name bound neither in the function's scope nor at
module level (and line 200 likewise reads the unbound `tailcuts`), so once
entered the function always raises `NameError` — and its call site does not
even reach the body, passing 5 arguments for 6 required parameters. -/
noncomputable def calc_muon_intensity_parameters (x y image : List ℝ)
    (mask : List Bool) (ring_fit : RingFit)
    (ctel_fit_muon : ℝ → ℝ → ℝ → List ℝ → List ℝ → List ℝ → IntensityFit) :
    Except PyErr IntensityFit :=
  let _muonintensityoutput := ctel_fit_muon ring_fit.ring_center_x
    ring_fit.ring_center_y ring_fit.ring_radius (mask_select x mask)
    (mask_select y mask) (mask_select image mask)
  -- lines 183-194 attach mask, ring_completeness and ring_size (externals);
  -- line 196: `dist_ringwidth_mask = ring_dist < muonintensityoutput.ring_width`
  .error (.nameError "ring_dist")

/-- The projection step of the orchestrator (source lines 237-238): the
transform is invoked with `fast_but_bad=True`, i.e. the fast small-angle
branch. -/
noncomputable def orchestrator_projection (ext : Externals) (x y : List ℝ)
    (foc_len : ℝ) : List ℝ × List ℝ :=
  transform_pixel_coords_from_meter_to_deg x y foc_len true ext.exact_mode

/-- The body of `analyze_muon_event`'s per-telescope loop (source lines
224-298) for one telescope: `Except.ok none` is Python's `continue` with no
record appended, `Except.ok (some r)` appends `r`, `Except.error e` is an
uncaught exception propagating out of the loop. -/
noncomputable def process_telescope (ext : Externals) (obs_id event_id : ℕ)
    (muon_cuts_by_name : List (String × MuonCut)) (tel : TelescopeData) :
    Except PyErr (Option TelRecord) :=
  match muon_cuts_by_name.lookup tel.name with
  | none => .error (.keyError tel.name)  -- line 233: dict lookup, KeyError
  | some muon_cut =>
    let tailcuts := muon_cut.tail_cuts
    let clean_mask := ext.tailcuts_clean tel tel.image tailcuts.picture_thresh
      tailcuts.boundary_thresh
    let xy := orchestrator_projection ext tel.pix_x tel.pix_y tel.foc_len
    let x := xy.1
    let y := xy.2
    if !(clean_mask.any (fun b => b)) then
      .ok none  -- line 250: early bail out, saves time
    else
      let fit_and_mask := do_multi_ring_fit ext.muon_ring_fit x y tel.image clean_mask
      let ring_fit := fit_and_mask.1
      let mask := fit_and_mask.2
      let containment := ext.ring_containment ring_fit.ring_radius muon_cut.CamRad
        ring_fit.ring_center_x ring_fit.ring_center_y
      -- line 270: `image * mask`, elementwise product zeroing masked-out pixels
      let cleaned := List.zipWith (fun v b => if b then v else 0) tel.image mask
      let base : TelRecord :=
        { MuonRingParams := ring_fit
          tel_id := tel.tel_id
          obs_id := obs_id
          event_id := event_id
          ring_containment := containment
          mirror_radius := tel.mirror_radius
          MuonIntensityParams := none
          muon_found := none }
      if is_ring_good cleaned ring_fit muon_cut then
        match py_call calc_muon_intensity_parameters_nparams
            analyze_muon_event_intensity_call_nargs
            (calc_muon_intensity_parameters x y tel.image mask ring_fit ext.fit_muon) with
        | .error e => .error e
        | .ok mi =>
          .ok (some { base with
            MuonIntensityParams := some mi
            muon_found := some (muon_found mi.impact_parameter mi.ring_width
              tel.mirror_radius muon_cut) })
      else
        .ok (some base)

/-- The `for telid in event.dl0.tels_with_data` loop of `analyze_muon_event`:
records are appended in iteration order; an exception aborts the whole call. -/
noncomputable def analyze_loop (ext : Externals) (obs_id event_id : ℕ)
    (muon_cuts_by_name : List (String × MuonCut)) :
    List TelescopeData → Except PyErr (List TelRecord)
  | [] => .ok []
  | tel :: rest =>
    match process_telescope ext obs_id event_id muon_cuts_by_name tel with
    | .error e => .error e
    | .ok none => analyze_loop ext obs_id event_id muon_cuts_by_name rest
    | .ok (some r) =>
      match analyze_loop ext obs_id event_id muon_cuts_by_name rest with
      | .error e => .error e
      | .ok rs => .ok (r :: rs)

/-- Source lines 206-300, `analyze_muon_event`: builds the cut table and runs
the per-telescope loop. -/
noncomputable def analyze_muon_event (ext : Externals) (event : Event) :
    Except PyErr (List TelRecord) :=
  analyze_loop ext event.obs_id event.event_id
    generate_muon_cuts_by_telescope_name event.tels

/-- The table entry for "LST_LST_LSTCam" (first row of the value lists). -/
def lst_cut : MuonCut :=
  (generate_muon_cuts_by_telescope_name.lookup "LST_LST_LSTCam").getD
    ⟨"", ⟨0, 0⟩, (0, 0), (0, 0), 0, 0, 0, 0, false, 0, 0⟩

/-- A synthetic cut configuration with tiny pixel-count thresholds, used to
exercise the ring-good gate with all non-radius conditions satisfied. -/
def boundary_cut : MuonCut :=
  { Name := "synthetic"
    tail_cuts := { picture_thresh := 1, boundary_thresh := 1 }
    Impact := (1/5, 9/10)
    RingWidth := (1/25, 2/25)
    total_pix := 2
    min_pix := 1
    CamRad := 2
    SecRad := 0
    SCT := false
    AngPixW := 1/10
    HoleRad := 0 }

/-- A two-pixel cleaned image with both charges above `boundary_cut`'s picture
threshold. -/
noncomputable def boundary_image : List ℝ := [2, 2]

/-- A ring-fit collaborator whose result depends on the mask it is handed, so
that the three fits of `do_multi_ring_fit` return three different rings. -/
noncomputable def cex_fit : FitFn := fun _ _ _ mask =>
  if mask = [false, true, true] then ⟨0, 0, 2⟩
  else if mask = [false, true, false] then ⟨0, 0, 10⟩
  else ⟨0, 0, 3⟩

/-- Pixel x-coordinates 1, 2, 4 on the horizontal axis. -/
noncomputable def cex_x : List ℝ := [1, 2, 4]

/-- Pixel y-coordinates all zero. -/
noncomputable def cex_y : List ℝ := [0, 0, 0]

/-- A ring-fit collaborator returning a fixed unit-radius ring at the camera
center. -/
noncomputable def const_fit : FitFn := fun _ _ _ _ => ⟨0, 0, 1⟩

/-- A stand-in for the astropy exact-mode reprojection. -/
def cex_exact_mode : List ℝ → List ℝ → ℝ → List ℝ × List ℝ := fun _ _ _ => ([], [])

/-- Concrete external collaborators: a cleaning that keeps every pixel, the
constant ring fitter, and trivial containment/intensity collaborators. -/
noncomputable def cex_ext : Externals :=
  { exact_mode := cex_exact_mode
    tailcuts_clean := fun tel _ _ _ => tel.image.map (fun _ => true)
    muon_ring_fit := const_fit
    ring_containment := fun _ _ _ _ => 0
    fit_muon := fun _ _ _ _ _ _ => ⟨0, 0⟩ }

/-- A telescope whose description string is not a key of the cut table. -/
noncomputable def bad_tel : TelescopeData :=
  { tel_id := 3, name := "NO_SUCH_TEL", foc_len := 16, mirror_radius := 6
    pix_x := [0], pix_y := [0], image := [1] }

/-- A telescope with a known configuration key and one pixel of data. -/
noncomputable def good_tel : TelescopeData :=
  { tel_id := 7, name := "LST_LST_LSTCam", foc_len := 16, mirror_radius := 6
    pix_x := [0], pix_y := [0], image := [1] }

/-- A telescope with a known configuration key and no pixel data, so that its
cleaning mask selects zero pixels. -/
noncomputable def empty_tel : TelescopeData :=
  { tel_id := 9, name := "LST_LST_LSTCam", foc_len := 16, mirror_radius := 6
    pix_x := [], pix_y := [], image := [] }

/-- Classifies a per-telescope outcome: `true` unless the outcome is an
emitted record carrying an intensity result or a muon-found flag. -/
def no_intensity_attached : Except PyErr (Option TelRecord) → Bool
  | .ok (some r) => r.MuonIntensityParams.isNone && r.muon_found.isNone
  | _ => true

/-- A focal-plane x-coordinate (meters) that the fast projection maps exactly
to 1.2 degrees at focal length 16. -/
noncomputable def ring_pix : ℝ := Real.pi * 16 * (6/5) / 180

/-- A ring fitter returning a fixed ring of radius 1.2 degrees at the camera
center — inside the ring-good radius window. -/
noncomputable def sst_fit : FitFn := fun _ _ _ _ => ⟨0, 0, 6/5⟩

/-- The collaborators of `cex_ext`, but with the 1.2-degree ring fitter. -/
noncomputable def cex_ext2 : Externals := { cex_ext with muon_ring_fit := sst_fit }

/-- A telescope of type SST_1M_DigiCam (min_pix = 104) with 105 identical
pixels of charge 6 sitting on a ring of angular radius 1.2 degrees, so that
the refined ring passes the ring-good gate. -/
noncomputable def c1_tel : TelescopeData :=
  { tel_id := 4, name := "SST_1M_DigiCam", foc_len := 16, mirror_radius := 2
    pix_x := List.replicate 105 ring_pix
    pix_y := List.replicate 105 0
    image := List.replicate 105 6 }

/-- The table entry for "SST_1M_DigiCam" (fifth row of the value lists). -/
def sst_cut : MuonCut :=
  (generate_muon_cuts_by_telescope_name.lookup "SST_1M_DigiCam").getD
    ⟨"", ⟨0, 0⟩, (0, 0), (0, 0), 0, 0, 0, 0, false, 0, 0⟩

/-- C10: the table built by `generate_muon_cuts_by_telescope_name` has exactly
the eight listed telescope-type names as keys, each key mapped position-wise to
the entries of the parallel value lists; since `zip` stops at the shortest
list, the ninth entry of the nine-element `ang_pixel_width` list (0.163 deg) is
dropped and assigned to no telescope type. -/
theorem muon_cut_table_zip_truncation :
    generate_muon_cuts_by_telescope_name.map Prod.fst = names ∧
    generate_muon_cuts_by_telescope_name.length = 8 ∧
    muon_cuts_list.map
        (fun mc => (mc.tail_cuts.picture_thresh, mc.tail_cuts.boundary_thresh)) = tail_cuts ∧
    muon_cuts_list.map (fun mc => mc.Impact) = impact ∧
    muon_cuts_list.map (fun mc => mc.RingWidth) = ringwidth ∧
    muon_cuts_list.map (fun mc => mc.total_pix) = total_pix ∧
    muon_cuts_list.map (fun mc => mc.min_pix) = min_pix ∧
    muon_cuts_list.map (fun mc => mc.CamRad) = cam_rad ∧
    muon_cuts_list.map (fun mc => mc.SecRad) = sec_rad ∧
    muon_cuts_list.map (fun mc => mc.SCT) = sct ∧
    muon_cuts_list.map (fun mc => mc.HoleRad) = hole_rad ∧
    muon_cuts_list.map (fun mc => mc.AngPixW) = ang_pixel_width.take 8 ∧
    ang_pixel_width.length = 9 ∧
    ang_pixel_width.getD 8 0 = 163/1000 ∧
    (163/1000 : ℚ) ∉ muon_cuts_list.map (fun mc => mc.AngPixW) := by
  refine ⟨rfl, rfl, rfl, rfl, rfl, rfl, rfl, rfl, rfl, rfl, rfl, rfl, rfl, rfl, ?_⟩
  have h : muon_cuts_list.map (fun mc => mc.AngPixW) =
      [1/10, 1/5, 9/50, 67/1000, 6/25, 1/5, 17/100, 1/5] := rfl
  rw [h]
  norm_num

/-! Helper lemmas shared by the claim theorems below. -/

lemma lst_cut_eq :
    lst_cut =
      { Name := "LST_LST_LSTCam", tail_cuts := { picture_thresh := 5, boundary_thresh := 7 },
        Impact := (1/5, 9/10), RingWidth := (1/25, 2/25), total_pix := 1855,
        min_pix := 148, CamRad := 226/100, SecRad := 0, SCT := false,
        AngPixW := 1/10, HoleRad := 308/1000 } := rfl

lemma lst_lookup :
    generate_muon_cuts_by_telescope_name.lookup "LST_LST_LSTCam" = some lst_cut := rfl

lemma crit_true {xi yi cx cy r p d : ℝ} (hs : (xi - cx) ^ 2 + (yi - cy) ^ 2 = d ^ 2)
    (hd : 0 ≤ d) (h : |d - r| < r * p) :
    decide (|Real.sqrt ((xi - cx) ^ 2 + (yi - cy) ^ 2) - r| < r * p) = true := by
  rw [hs, Real.sqrt_sq hd]
  exact decide_eq_true h

lemma crit_false {xi yi cx cy r p d : ℝ} (hs : (xi - cx) ^ 2 + (yi - cy) ^ 2 = d ^ 2)
    (hd : 0 ≤ d) (h : ¬ |d - r| < r * p) :
    decide (|Real.sqrt ((xi - cx) ^ 2 + (yi - cy) ^ 2) - r| < r * p) = false := by
  rw [hs, Real.sqrt_sq hd]
  exact decide_eq_false h

lemma is_ring_good_eq_true_iff (cleaned_image : List ℝ) (ring_fit : RingFit)
    (muon_cut : MuonCut) :
    is_ring_good cleaned_image ring_fit muon_cut = true ↔
      (0.1 * (muon_cut.min_pix : ℝ) <
          (npix_above_threshold cleaned_image muon_cut.tail_cuts.picture_thresh : ℝ) ∧
       (muon_cut.min_pix : ℝ) < (npix_composing_ring cleaned_image : ℝ) ∧
       calc_nom_dist ring_fit < (muon_cut.CamRad : ℝ) ∧
       1 < ring_fit.ring_radius ∧ ring_fit.ring_radius < 1.5) := by
  simp [is_ring_good, Bool.and_eq_true, decide_eq_true_eq, and_assoc]

lemma muon_found_eq_true_iff (impact_parameter ring_width mirror_radius : ℝ)
    (muon_cut : MuonCut) :
    muon_found impact_parameter ring_width mirror_radius muon_cut = true ↔
      ((muon_cut.Impact.1 : ℝ) * mirror_radius < impact_parameter ∧
       impact_parameter < (muon_cut.Impact.2 : ℝ) * mirror_radius ∧
       (muon_cut.RingWidth.1 : ℝ) < ring_width ∧
       ring_width < (muon_cut.RingWidth.2 : ℝ)) := by
  simp [muon_found, Bool.and_eq_true, decide_eq_true_eq, and_assoc]
  tauto

lemma getD_zipWith_and_le_left (a b : List Bool) (i : ℕ) :
    (List.zipWith (· && ·) a b).getD i false ≤ a.getD i false := by
  induction a generalizing b i with
  | nil => simp
  | cons xh xt ih =>
    cases b with
    | nil => simp [Bool.false_le]
    | cons yh yt =>
      cases i with
      | zero => simpa using Bool.and_le_left xh yh
      | succ n => simpa using ih yt n

lemma do_multi_ring_fit_eq (muon_ring_fit : FitFn) (x y image : List ℝ)
    (clean_mask : List Bool) :
    do_multi_ring_fit muon_ring_fit x y image clean_mask =
      (muon_ring_fit x y image (multi_fit_round2_mask muon_ring_fit x y image clean_mask),
       multi_fit_round3_mask muon_ring_fit x y image clean_mask) := rfl

lemma tighten_getD_iff (prev : List Bool) (x y : List ℝ) (rf : RingFit) (i : ℕ)
    (hxy : y.length = x.length) (hp : prev.length = x.length) (hi : i < x.length) :
    ((List.zipWith (· && ·) prev (calc_dist_and_ring_dist x y rf 0.4).2.2).getD i false = true ↔
      (prev.getD i false = true ∧
        |Real.sqrt ((x.getD i 0 - rf.ring_center_x) ^ 2 +
            (y.getD i 0 - rf.ring_center_y) ^ 2) - rf.ring_radius| <
          rf.ring_radius * 0.4)) := by
  have hdm : (calc_dist_and_ring_dist x y rf 0.4).2.2.length = x.length := by
    simp [calc_dist_and_ring_dist, hxy]
  have hyi : i < y.length := by rw [hxy]; exact hi
  have hpi : i < prev.length := by rw [hp]; exact hi
  have hdmi : i < (calc_dist_and_ring_dist x y rf 0.4).2.2.length := by rw [hdm]; exact hi
  have hzi : i < (List.zipWith (· && ·) prev
      (calc_dist_and_ring_dist x y rf 0.4).2.2).length := by
    rw [List.length_zipWith]
    omega
  have hdm_elem : (calc_dist_and_ring_dist x y rf 0.4).2.2[i] =
      decide (|Real.sqrt ((x[i] - rf.ring_center_x) ^ 2 +
          (y[i] - rf.ring_center_y) ^ 2) - rf.ring_radius| < rf.ring_radius * 0.4) := by
    simp only [calc_dist_and_ring_dist, List.getElem_map, List.getElem_zipWith]
  rw [List.getD_eq_getElem _ false hzi, List.getElem_zipWith, Bool.and_eq_true,
      List.getD_eq_getElem prev false hpi, List.getD_eq_getElem x 0 hi,
      List.getD_eq_getElem y 0 hyi, hdm_elem, decide_eq_true_eq]

lemma round1_mask_length (muon_ring_fit : FitFn) (x y image : List ℝ)
    (clean_mask : List Bool) (hxy : y.length = x.length)
    (hm : clean_mask.length = x.length) :
    (multi_fit_round1_mask muon_ring_fit x y image clean_mask).length = x.length := by
  simp only [multi_fit_round1_mask, calc_dist_and_ring_dist, List.length_zipWith,
    List.length_map, hxy, hm]
  omega

lemma round2_mask_length (muon_ring_fit : FitFn) (x y image : List ℝ)
    (clean_mask : List Bool) (hxy : y.length = x.length)
    (hm : clean_mask.length = x.length) :
    (multi_fit_round2_mask muon_ring_fit x y image clean_mask).length = x.length := by
  simp only [multi_fit_round2_mask, calc_dist_and_ring_dist, List.length_zipWith,
    List.length_map, round1_mask_length muon_ring_fit x y image clean_mask hxy hm, hxy]
  omega

/-- C5: the inlier mask after each refinement round is a pointwise (non-strict)
subset of the mask after the previous round, and the final returned mask is a
subset of the initial cleaning mask: no pixel excluded in an earlier round ever
re-enters. -/
theorem refinement_masks_monotone (muon_ring_fit : FitFn) (x y image : List ℝ)
    (clean_mask : List Bool) (i : ℕ) :
    (multi_fit_round1_mask muon_ring_fit x y image clean_mask).getD i false ≤
        clean_mask.getD i false ∧
    (multi_fit_round2_mask muon_ring_fit x y image clean_mask).getD i false ≤
        (multi_fit_round1_mask muon_ring_fit x y image clean_mask).getD i false ∧
    (multi_fit_round3_mask muon_ring_fit x y image clean_mask).getD i false ≤
        (multi_fit_round2_mask muon_ring_fit x y image clean_mask).getD i false ∧
    ((do_multi_ring_fit muon_ring_fit x y image clean_mask).2).getD i false ≤
        clean_mask.getD i false := by
  refine ⟨getD_zipWith_and_le_left _ _ _, getD_zipWith_and_le_left _ _ _,
    getD_zipWith_and_le_left _ _ _, ?_⟩
  calc ((do_multi_ring_fit muon_ring_fit x y image clean_mask).2).getD i false
      = (multi_fit_round3_mask muon_ring_fit x y image clean_mask).getD i false := rfl
    _ ≤ (multi_fit_round2_mask muon_ring_fit x y image clean_mask).getD i false :=
        getD_zipWith_and_le_left _ _ _
    _ ≤ (multi_fit_round1_mask muon_ring_fit x y image clean_mask).getD i false :=
        getD_zipWith_and_le_left _ _ _
    _ ≤ clean_mask.getD i false := getD_zipWith_and_le_left _ _ _

/-- C4 (amended): `do_multi_ring_fit` performs three fits and three
mask-tightening steps; the returned geometry is the third fit, run on the mask
after the second tightening, and the returned mask is that third-fit input mask
tightened once more by the criterion from the third fit's geometry — not, in
general, the mask the third fit was run on. -/
theorem do_multi_ring_fit_returns_thrice_tightened_mask (muon_ring_fit : FitFn)
    (x y image : List ℝ) (clean_mask : List Bool) :
    do_multi_ring_fit muon_ring_fit x y image clean_mask =
      (muon_ring_fit x y image (multi_fit_round2_mask muon_ring_fit x y image clean_mask),
       multi_fit_round3_mask muon_ring_fit x y image clean_mask) ∧
    multi_fit_round3_mask muon_ring_fit x y image clean_mask =
      List.zipWith (· && ·) (multi_fit_round2_mask muon_ring_fit x y image clean_mask)
        (calc_dist_and_ring_dist x y
          (muon_ring_fit x y image
            (multi_fit_round2_mask muon_ring_fit x y image clean_mask)) 0.4).2.2 :=
  ⟨do_multi_ring_fit_eq muon_ring_fit x y image clean_mask, rfl⟩

lemma cex_fit_init : cex_fit cex_x cex_y cex_x [true, true, true] = ⟨0, 0, 3⟩ := rfl

lemma cex_fit_r1 : cex_fit cex_x cex_y cex_x [false, true, true] = ⟨0, 0, 2⟩ := rfl

lemma cex_fit_r2 : cex_fit cex_x cex_y cex_x [false, true, false] = ⟨0, 0, 10⟩ := rfl

lemma cex_dm_r3 :
    (calc_dist_and_ring_dist cex_x cex_y ⟨0, 0, 3⟩ 0.4).2.2 = [false, true, true] := by
  simp only [calc_dist_and_ring_dist, cex_x, cex_y, List.zipWith_cons_cons,
    List.zipWith_nil_left, List.map_cons, List.map_nil]
  rw [crit_false (show ((1:ℝ) - 0) ^ 2 + ((0:ℝ) - 0) ^ 2 = 1 ^ 2 by norm_num)
        (by norm_num) (show ¬ |(1:ℝ) - 3| < 3 * 0.4 by rw [abs_sub_lt_iff]; norm_num),
      crit_true (show ((2:ℝ) - 0) ^ 2 + ((0:ℝ) - 0) ^ 2 = 2 ^ 2 by norm_num)
        (by norm_num) (show |(2:ℝ) - 3| < 3 * 0.4 by rw [abs_sub_lt_iff]; norm_num),
      crit_true (show ((4:ℝ) - 0) ^ 2 + ((0:ℝ) - 0) ^ 2 = 4 ^ 2 by norm_num)
        (by norm_num) (show |(4:ℝ) - 3| < 3 * 0.4 by rw [abs_sub_lt_iff]; norm_num)]

lemma cex_dm_r2 :
    (calc_dist_and_ring_dist cex_x cex_y ⟨0, 0, 2⟩ 0.4).2.2 = [false, true, false] := by
  simp only [calc_dist_and_ring_dist, cex_x, cex_y, List.zipWith_cons_cons,
    List.zipWith_nil_left, List.map_cons, List.map_nil]
  rw [crit_false (show ((1:ℝ) - 0) ^ 2 + ((0:ℝ) - 0) ^ 2 = 1 ^ 2 by norm_num)
        (by norm_num) (show ¬ |(1:ℝ) - 2| < 2 * 0.4 by rw [abs_sub_lt_iff]; norm_num),
      crit_true (show ((2:ℝ) - 0) ^ 2 + ((0:ℝ) - 0) ^ 2 = 2 ^ 2 by norm_num)
        (by norm_num) (show |(2:ℝ) - 2| < 2 * 0.4 by rw [abs_sub_lt_iff]; norm_num),
      crit_false (show ((4:ℝ) - 0) ^ 2 + ((0:ℝ) - 0) ^ 2 = 4 ^ 2 by norm_num)
        (by norm_num) (show ¬ |(4:ℝ) - 2| < 2 * 0.4 by rw [abs_sub_lt_iff]; norm_num)]

lemma cex_dm_r10 :
    (calc_dist_and_ring_dist cex_x cex_y ⟨0, 0, 10⟩ 0.4).2.2 = [false, false, false] := by
  simp only [calc_dist_and_ring_dist, cex_x, cex_y, List.zipWith_cons_cons,
    List.zipWith_nil_left, List.map_cons, List.map_nil]
  rw [crit_false (show ((1:ℝ) - 0) ^ 2 + ((0:ℝ) - 0) ^ 2 = 1 ^ 2 by norm_num)
        (by norm_num) (show ¬ |(1:ℝ) - 10| < 10 * 0.4 by rw [abs_sub_lt_iff]; norm_num),
      crit_false (show ((2:ℝ) - 0) ^ 2 + ((0:ℝ) - 0) ^ 2 = 2 ^ 2 by norm_num)
        (by norm_num) (show ¬ |(2:ℝ) - 10| < 10 * 0.4 by rw [abs_sub_lt_iff]; norm_num),
      crit_false (show ((4:ℝ) - 0) ^ 2 + ((0:ℝ) - 0) ^ 2 = 4 ^ 2 by norm_num)
        (by norm_num) (show ¬ |(4:ℝ) - 10| < 10 * 0.4 by rw [abs_sub_lt_iff]; norm_num)]

lemma cex_round1 :
    multi_fit_round1_mask cex_fit cex_x cex_y cex_x [true, true, true] =
      [false, true, true] := by
  unfold multi_fit_round1_mask
  rw [cex_fit_init, cex_dm_r3]
  rfl

lemma cex_round2 :
    multi_fit_round2_mask cex_fit cex_x cex_y cex_x [true, true, true] =
      [false, true, false] := by
  unfold multi_fit_round2_mask
  rw [cex_round1]
  simp only [cex_fit_r1, cex_dm_r2]
  rfl

lemma cex_round3 :
    multi_fit_round3_mask cex_fit cex_x cex_y cex_x [true, true, true] =
      [false, false, false] := by
  unfold multi_fit_round3_mask
  rw [cex_round2]
  simp only [cex_fit_r2, cex_dm_r10]
  rfl

/-- C4 (counterexample): with a mask-sensitive ring fitter, the mask returned by
`do_multi_ring_fit` differs from the mask the third fit was run on — the
pixel kept by the second tightening is removed again by the third. -/
theorem do_multi_ring_fit_mask_cex :
    multi_fit_round2_mask cex_fit cex_x cex_y cex_x [true, true, true] =
      [false, true, false] ∧
    (do_multi_ring_fit cex_fit cex_x cex_y cex_x [true, true, true]).2 =
      [false, false, false] ∧
    (do_multi_ring_fit cex_fit cex_x cex_y cex_x [true, true, true]).2 ≠
      multi_fit_round2_mask cex_fit cex_x cex_y cex_x [true, true, true] := by
  refine ⟨cex_round2, ?_, ?_⟩
  · rw [do_multi_ring_fit_eq]
    exact cex_round3
  · rw [do_multi_ring_fit_eq]
    show multi_fit_round3_mask cex_fit cex_x cex_y cex_x [true, true, true] ≠ _
    rw [cex_round3, cex_round2]
    decide

/-- C9: in each tightening step of the ring refinement, pixel i's new inlier
criterion holds iff the absolute deviation of its distance-from-center from the
fitted radius is below 0.4 times the fitted radius — the multiplier 0.4 being
the same at every round and independent of the telescope type — and the new
mask is the pointwise AND of this criterion with the previous round's mask. -/
theorem tightening_criterion (muon_ring_fit : FitFn) (x y image : List ℝ)
    (clean_mask : List Bool) (i : ℕ) (hxy : y.length = x.length)
    (hm : clean_mask.length = x.length) (hi : i < x.length) :
    ((multi_fit_round1_mask muon_ring_fit x y image clean_mask).getD i false = true ↔
      (clean_mask.getD i false = true ∧
        |Real.sqrt ((x.getD i 0 - (muon_ring_fit x y image clean_mask).ring_center_x) ^ 2 +
            (y.getD i 0 - (muon_ring_fit x y image clean_mask).ring_center_y) ^ 2) -
          (muon_ring_fit x y image clean_mask).ring_radius| <
        (muon_ring_fit x y image clean_mask).ring_radius * 0.4)) ∧
    ((multi_fit_round2_mask muon_ring_fit x y image clean_mask).getD i false = true ↔
      ((multi_fit_round1_mask muon_ring_fit x y image clean_mask).getD i false = true ∧
        |Real.sqrt ((x.getD i 0 -
              (muon_ring_fit x y image
                (multi_fit_round1_mask muon_ring_fit x y image clean_mask)).ring_center_x) ^ 2 +
            (y.getD i 0 -
              (muon_ring_fit x y image
                (multi_fit_round1_mask muon_ring_fit x y image clean_mask)).ring_center_y) ^ 2) -
          (muon_ring_fit x y image
            (multi_fit_round1_mask muon_ring_fit x y image clean_mask)).ring_radius| <
        (muon_ring_fit x y image
          (multi_fit_round1_mask muon_ring_fit x y image clean_mask)).ring_radius * 0.4)) ∧
    ((multi_fit_round3_mask muon_ring_fit x y image clean_mask).getD i false = true ↔
      ((multi_fit_round2_mask muon_ring_fit x y image clean_mask).getD i false = true ∧
        |Real.sqrt ((x.getD i 0 -
              (muon_ring_fit x y image
                (multi_fit_round2_mask muon_ring_fit x y image clean_mask)).ring_center_x) ^ 2 +
            (y.getD i 0 -
              (muon_ring_fit x y image
                (multi_fit_round2_mask muon_ring_fit x y image clean_mask)).ring_center_y) ^ 2) -
          (muon_ring_fit x y image
            (multi_fit_round2_mask muon_ring_fit x y image clean_mask)).ring_radius| <
        (muon_ring_fit x y image
          (multi_fit_round2_mask muon_ring_fit x y image clean_mask)).ring_radius * 0.4)) :=
  ⟨tighten_getD_iff clean_mask x y (muon_ring_fit x y image clean_mask) i hxy hm hi,
   tighten_getD_iff (multi_fit_round1_mask muon_ring_fit x y image clean_mask) x y
     (muon_ring_fit x y image (multi_fit_round1_mask muon_ring_fit x y image clean_mask)) i
     hxy (round1_mask_length muon_ring_fit x y image clean_mask hxy hm) hi,
   tighten_getD_iff (multi_fit_round2_mask muon_ring_fit x y image clean_mask) x y
     (muon_ring_fit x y image (multi_fit_round2_mask muon_ring_fit x y image clean_mask)) i
     hxy (round2_mask_length muon_ring_fit x y image clean_mask hxy hm) hi⟩

/-- Witness for tightening_criterion: the hypotheses hold and the theorem
applies at the concrete three-pixel input with index 1. -/
theorem tightening_criterion_witness :
    cex_y.length = cex_x.length ∧
    ([true, true, true] : List Bool).length = cex_x.length ∧
    1 < cex_x.length ∧
    (((multi_fit_round1_mask cex_fit cex_x cex_y cex_x [true, true, true]).getD 1 false = true ↔
      (([true, true, true] : List Bool).getD 1 false = true ∧
        |Real.sqrt ((cex_x.getD 1 0 -
              (cex_fit cex_x cex_y cex_x [true, true, true]).ring_center_x) ^ 2 +
            (cex_y.getD 1 0 -
              (cex_fit cex_x cex_y cex_x [true, true, true]).ring_center_y) ^ 2) -
          (cex_fit cex_x cex_y cex_x [true, true, true]).ring_radius| <
        (cex_fit cex_x cex_y cex_x [true, true, true]).ring_radius * 0.4)) ∧
    ((multi_fit_round2_mask cex_fit cex_x cex_y cex_x [true, true, true]).getD 1 false = true ↔
      ((multi_fit_round1_mask cex_fit cex_x cex_y cex_x [true, true, true]).getD 1 false = true ∧
        |Real.sqrt ((cex_x.getD 1 0 -
              (cex_fit cex_x cex_y cex_x
                (multi_fit_round1_mask cex_fit cex_x cex_y cex_x
                  [true, true, true])).ring_center_x) ^ 2 +
            (cex_y.getD 1 0 -
              (cex_fit cex_x cex_y cex_x
                (multi_fit_round1_mask cex_fit cex_x cex_y cex_x
                  [true, true, true])).ring_center_y) ^ 2) -
          (cex_fit cex_x cex_y cex_x
            (multi_fit_round1_mask cex_fit cex_x cex_y cex_x
              [true, true, true])).ring_radius| <
        (cex_fit cex_x cex_y cex_x
          (multi_fit_round1_mask cex_fit cex_x cex_y cex_x
            [true, true, true])).ring_radius * 0.4)) ∧
    ((multi_fit_round3_mask cex_fit cex_x cex_y cex_x [true, true, true]).getD 1 false = true ↔
      ((multi_fit_round2_mask cex_fit cex_x cex_y cex_x [true, true, true]).getD 1 false = true ∧
        |Real.sqrt ((cex_x.getD 1 0 -
              (cex_fit cex_x cex_y cex_x
                (multi_fit_round2_mask cex_fit cex_x cex_y cex_x
                  [true, true, true])).ring_center_x) ^ 2 +
            (cex_y.getD 1 0 -
              (cex_fit cex_x cex_y cex_x
                (multi_fit_round2_mask cex_fit cex_x cex_y cex_x
                  [true, true, true])).ring_center_y) ^ 2) -
          (cex_fit cex_x cex_y cex_x
            (multi_fit_round2_mask cex_fit cex_x cex_y cex_x
              [true, true, true])).ring_radius| <
        (cex_fit cex_x cex_y cex_x
          (multi_fit_round2_mask cex_fit cex_x cex_y cex_x
            [true, true, true])).ring_radius * 0.4))) :=
  ⟨rfl, rfl, by norm_num [cex_x],
   tightening_criterion cex_fit cex_x cex_y cex_x [true, true, true] 1 rfl rfl
     (by norm_num [cex_x])⟩

/-- C2 (amended): the ring-good gate's radius window is strict at BOTH edges:
the gate is true iff the three pixel-count/containment conditions hold AND the
radius lies strictly between 1.0° (exclusive, contrary to the claim's inclusive
low edge) and 1.5° (exclusive). -/
theorem ring_good_radius_window_strict (cleaned_image : List ℝ) (ring_fit : RingFit)
    (muon_cut : MuonCut) :
    is_ring_good cleaned_image ring_fit muon_cut = true ↔
      (0.1 * (muon_cut.min_pix : ℝ) <
          (npix_above_threshold cleaned_image muon_cut.tail_cuts.picture_thresh : ℝ) ∧
       (muon_cut.min_pix : ℝ) < (npix_composing_ring cleaned_image : ℝ) ∧
       calc_nom_dist ring_fit < (muon_cut.CamRad : ℝ) ∧
       1 < ring_fit.ring_radius ∧ ring_fit.ring_radius < 1.5) :=
  is_ring_good_eq_true_iff cleaned_image ring_fit muon_cut

lemma boundary_npix_above :
    npix_above_threshold boundary_image (boundary_cut.tail_cuts.picture_thresh : ℝ) = 2 := by
  have h : (decide ((((1:ℚ):ℝ)) < (2:ℝ))) = true := decide_eq_true (by norm_num)
  simp only [npix_above_threshold, boundary_image, boundary_cut, List.filter, h,
    List.length_cons, List.length_nil]

lemma boundary_npix_nonzero : npix_composing_ring boundary_image = 2 := by
  have h : (decide ((2:ℝ) ≠ 0)) = true := decide_eq_true (by norm_num)
  simp only [npix_composing_ring, boundary_image, List.filter, h,
    List.length_cons, List.length_nil]

lemma nom_dist_zero : calc_nom_dist ⟨0, 0, 1⟩ = 0 := by
  simp [calc_nom_dist]

lemma nom_dist_zero' (r : ℝ) : calc_nom_dist ⟨0, 0, r⟩ = 0 := by
  simp [calc_nom_dist]

/-- C2 (counterexample): a ring of radius exactly 1.0° is REJECTED by the
ring-good gate although all three non-radius conditions hold for this image
and cut, while the same input with radius 1.1° is accepted: the low edge of
the radius window is exclusive, not inclusive. -/
theorem ring_good_low_edge_cex :
    0.1 * (boundary_cut.min_pix : ℝ) <
      (npix_above_threshold boundary_image (boundary_cut.tail_cuts.picture_thresh : ℝ) : ℝ) ∧
    (boundary_cut.min_pix : ℝ) < (npix_composing_ring boundary_image : ℝ) ∧
    calc_nom_dist ⟨0, 0, 1⟩ < (boundary_cut.CamRad : ℝ) ∧
    is_ring_good boundary_image ⟨0, 0, 1⟩ boundary_cut = false ∧
    is_ring_good boundary_image ⟨0, 0, 11/10⟩ boundary_cut = true := by
  refine ⟨?_, ?_, ?_, ?_, ?_⟩
  · rw [boundary_npix_above]
    simp only [boundary_cut]
    norm_num
  · rw [boundary_npix_nonzero]
    simp only [boundary_cut]
    norm_num
  · rw [nom_dist_zero]
    simp only [boundary_cut]
    norm_num
  · cases h : is_ring_good boundary_image ⟨0, 0, 1⟩ boundary_cut with
    | false => rfl
    | true =>
      have h2 := (is_ring_good_eq_true_iff _ _ _).mp h
      exact absurd h2.2.2.2.1 (by norm_num)
  · rw [is_ring_good_eq_true_iff]
    refine ⟨?_, ?_, ?_, by norm_num, by norm_num⟩
    · rw [boundary_npix_above]
      simp only [boundary_cut]
      norm_num
    · rw [boundary_npix_nonzero]
      simp only [boundary_cut]
      norm_num
    · rw [nom_dist_zero']
      simp only [boundary_cut]
      norm_num

/-- C3 (amended): the muon-found gate is true iff the impact parameter lies
STRICTLY between low*mirror_radius and high*mirror_radius and the ring width
lies STRICTLY inside its configured window — all four comparisons are strict,
so a value exactly at low*mirror_radius is rejected, contrary to the claim's
inclusive low bound. -/
theorem muon_found_strict_windows (impact_parameter ring_width mirror_radius : ℝ)
    (muon_cut : MuonCut) :
    muon_found impact_parameter ring_width mirror_radius muon_cut = true ↔
      ((muon_cut.Impact.1 : ℝ) * mirror_radius < impact_parameter ∧
       impact_parameter < (muon_cut.Impact.2 : ℝ) * mirror_radius ∧
       (muon_cut.RingWidth.1 : ℝ) < ring_width ∧
       ring_width < (muon_cut.RingWidth.2 : ℝ)) :=
  muon_found_eq_true_iff impact_parameter ring_width mirror_radius muon_cut

/-- C3 (counterexample): with the LST configuration and mirror radius 2, an
impact parameter exactly at low*mirror_radius (0.2·2 = 0.4) is REJECTED, as is
each of the other three window edges, while a strictly interior point passes:
every comparison of the gate is strict. -/
theorem muon_found_boundaries_cex :
    (lst_cut.Impact.1 : ℝ) * 2 = 2/5 ∧
    ((lst_cut.RingWidth.1 : ℝ) < 3/50 ∧ (3/50 : ℝ) < (lst_cut.RingWidth.2 : ℝ)) ∧
    muon_found (2/5) (3/50) 2 lst_cut = false ∧
    muon_found (9/5) (3/50) 2 lst_cut = false ∧
    muon_found 1 (1/25) 2 lst_cut = false ∧
    muon_found 1 (2/25) 2 lst_cut = false ∧
    muon_found 1 (3/50) 2 lst_cut = true := by
  rw [lst_cut_eq]
  refine ⟨by push_cast; norm_num, ⟨by push_cast; norm_num, by push_cast; norm_num⟩,
    ?_, ?_, ?_, ?_, ?_⟩
  · cases h : muon_found (2/5) (3/50) 2 _ with
    | false => rfl
    | true =>
      have h2 := (muon_found_eq_true_iff _ _ _ _).mp h
      refine absurd h2.1 (by push_cast; norm_num)
  · cases h : muon_found (9/5) (3/50) 2 _ with
    | false => rfl
    | true =>
      have h2 := (muon_found_eq_true_iff _ _ _ _).mp h
      refine absurd h2.2.1 (by push_cast; norm_num)
  · cases h : muon_found 1 (1/25) 2 _ with
    | false => rfl
    | true =>
      have h2 := (muon_found_eq_true_iff _ _ _ _).mp h
      refine absurd h2.2.2.1 (by push_cast; norm_num)
  · cases h : muon_found 1 (2/25) 2 _ with
    | false => rfl
    | true =>
      have h2 := (muon_found_eq_true_iff _ _ _ _).mp h
      refine absurd h2.2.2.2 (by push_cast; norm_num)
  · rw [muon_found_eq_true_iff]
    refine ⟨by push_cast; norm_num, by push_cast; norm_num,
      by push_cast; norm_num, by push_cast; norm_num⟩

lemma rad2deg_zero : rad2deg 0 = 0 := by
  simp [rad2deg]

lemma rad2deg_ring_pix : rad2deg (ring_pix / 16) = 6/5 := by
  unfold rad2deg ring_pix
  field_simp
  ring

lemma c1_proj :
    orchestrator_projection cex_ext2 c1_tel.pix_x c1_tel.pix_y c1_tel.foc_len =
      (List.replicate 105 (0:ℝ), List.replicate 105 ((6:ℝ)/5)) := by
  rw [show c1_tel.pix_x = List.replicate 105 ring_pix from rfl,
      show c1_tel.pix_y = List.replicate 105 (0:ℝ) from rfl,
      show c1_tel.foc_len = (16:ℝ) from rfl]
  unfold orchestrator_projection transform_pixel_coords_from_meter_to_deg
  rw [if_pos rfl]
  dsimp only
  rw [List.map_replicate, List.map_replicate,
      show rad2deg ((0:ℝ) / 16) = 0 by rw [zero_div, rad2deg_zero], rad2deg_ring_pix]

lemma c1_dm :
    (calc_dist_and_ring_dist (List.replicate 105 (0:ℝ)) (List.replicate 105 ((6:ℝ)/5))
        ⟨0, 0, 6/5⟩ 0.4).2.2 = List.replicate 105 true := by
  simp only [calc_dist_and_ring_dist, List.zipWith_replicate, List.map_replicate, min_self]
  rw [crit_true (show ((0:ℝ) - 0) ^ 2 + (((6:ℝ)/5) - 0) ^ 2 = ((6:ℝ)/5) ^ 2 by norm_num)
      (by norm_num)
      (show |((6:ℝ)/5) - 6/5| < 6/5 * 0.4 by rw [abs_sub_lt_iff]; norm_num)]

lemma c1_multi :
    do_multi_ring_fit cex_ext2.muon_ring_fit (List.replicate 105 (0:ℝ))
        (List.replicate 105 ((6:ℝ)/5)) c1_tel.image (List.replicate 105 true) =
      (⟨0, 0, 6/5⟩, List.replicate 105 true) := by
  rw [show cex_ext2.muon_ring_fit = sst_fit from rfl]
  unfold do_multi_ring_fit
  simp only [sst_fit, c1_dm, List.zipWith_replicate, min_self, Bool.and_self]

lemma c1_cleaned :
    List.zipWith (fun v b => if b then v else 0) c1_tel.image (List.replicate 105 true) =
      List.replicate 105 (6:ℝ) := by
  rw [show c1_tel.image = List.replicate 105 (6:ℝ) from rfl]
  simp [List.zipWith_replicate]

lemma sst_cut_eq :
    sst_cut =
      { Name := "SST_1M_DigiCam", tail_cuts := { picture_thresh := 5, boundary_thresh := 7 },
        Impact := (1/10, 19/20), RingWidth := (1/100, 1/2), total_pix := 1296,
        min_pix := 104, CamRad := 445/100, SecRad := 0, SCT := false,
        AngPixW := 6/25, HoleRad := 160/1000 } := rfl

lemma c1_npix_above :
    npix_above_threshold (List.replicate 105 (6:ℝ))
      (sst_cut.tail_cuts.picture_thresh : ℝ) = 105 := by
  rw [sst_cut_eq]
  simp only [npix_above_threshold, List.filter_replicate]
  rw [if_pos (decide_eq_true (by push_cast; norm_num))]
  exact List.length_replicate 105 6

lemma c1_npix_nonzero : npix_composing_ring (List.replicate 105 (6:ℝ)) = 105 := by
  simp only [npix_composing_ring, List.filter_replicate]
  rw [if_pos (decide_eq_true (by norm_num : (6:ℝ) ≠ 0))]
  exact List.length_replicate 105 6

lemma c1_gate : is_ring_good (List.replicate 105 (6:ℝ)) ⟨0, 0, 6/5⟩ sst_cut = true := by
  rw [is_ring_good_eq_true_iff]
  refine ⟨?_, ?_, ?_, by norm_num, by norm_num⟩
  · rw [c1_npix_above, sst_cut_eq]
    push_cast
    norm_num
  · rw [c1_npix_nonzero, sst_cut_eq]
    push_cast
    norm_num
  · rw [nom_dist_zero', sst_cut_eq]
    push_cast
    norm_num

lemma c1_tel_process :
    process_telescope cex_ext2 1 2 generate_muon_cuts_by_telescope_name c1_tel =
      .error (.typeError "missing required positional argument") := by
  have hlook : generate_muon_cuts_by_telescope_name.lookup c1_tel.name = some sst_cut := rfl
  have hclean : cex_ext2.tailcuts_clean c1_tel c1_tel.image
      sst_cut.tail_cuts.picture_thresh sst_cut.tail_cuts.boundary_thresh =
      List.replicate 105 true := by
    show c1_tel.image.map (fun _ => true) = List.replicate 105 true
    rw [show c1_tel.image = List.replicate 105 (6:ℝ) from rfl, List.map_replicate]
  unfold process_telescope
  rw [hlook]
  dsimp only
  rw [hclean, c1_proj]
  dsimp only
  rw [c1_multi]
  dsimp only
  rw [c1_cleaned, c1_gate]
  rfl

/-- C1 (code bug): the spec claims that whenever the ring-good gate passes,
the intensity fit runs to completion and its result plus the muon-found flag
are attached, the error branch being unreachable.  In the code the intensity
step can never complete: the call site passes five positional arguments to the
six-parameter `calc_muon_intensity_parameters` (TypeError before entry; the
body would also read the unbound names `ring_dist` and `tailcuts`), so the
step always raises, no per-telescope outcome ever carries an intensity result
or a muon-found flag, and a concrete telescope that passes the ring-good gate
makes the orchestrator raise TypeError. -/
theorem intensity_step_never_completes :
    (∀ body : Except PyErr IntensityFit,
        py_call calc_muon_intensity_parameters_nparams
            analyze_muon_event_intensity_call_nargs body =
          .error (.typeError "missing required positional argument")) ∧
    (∀ (ext : Externals) (obs_id event_id : ℕ)
        (muon_cuts_by_name : List (String × MuonCut)) (tel : TelescopeData),
        no_intensity_attached
          (process_telescope ext obs_id event_id muon_cuts_by_name tel) = true) ∧
    process_telescope cex_ext2 1 2 generate_muon_cuts_by_telescope_name c1_tel =
      .error (.typeError "missing required positional argument") := by
  refine ⟨fun body => rfl, ?_, c1_tel_process⟩
  intro ext obs_id event_id cfg tel
  unfold process_telescope
  cases cfg.lookup tel.name with
  | none => rfl
  | some cut =>
    dsimp only
    split
    · rfl
    · split
      · rfl
      · rfl

lemma proj_zero : orchestrator_projection cex_ext [0] [0] 16 = ([0], [0]) := by
  simp [orchestrator_projection, transform_pixel_coords_from_meter_to_deg, rad2deg]

lemma dm_zero : (calc_dist_and_ring_dist [(0:ℝ)] [(0:ℝ)] ⟨0, 0, 1⟩ 0.4).2.2 = [false] := by
  simp only [calc_dist_and_ring_dist, List.zipWith_cons_cons, List.zipWith_nil_left,
    List.map_cons, List.map_nil]
  rw [crit_false (show ((0:ℝ) - 0) ^ 2 + ((0:ℝ) - 0) ^ 2 = 0 ^ 2 by norm_num)
      le_rfl (show ¬ |(0:ℝ) - 1| < 1 * 0.4 by rw [abs_sub_lt_iff]; norm_num)]

lemma good_multi_fit :
    do_multi_ring_fit const_fit [(0:ℝ)] [(0:ℝ)] [(1:ℝ)] [true] = (⟨0, 0, 1⟩, [false]) := by
  unfold do_multi_ring_fit
  simp only [const_fit, dm_zero, List.zipWith_cons_cons, List.zipWith_nil_left,
    Bool.and_false, Bool.true_and, Bool.false_and]

lemma gate_false_unit_ring (cleaned_image : List ℝ) :
    is_ring_good cleaned_image ⟨0, 0, 1⟩ lst_cut = false := by
  cases h : is_ring_good cleaned_image ⟨0, 0, 1⟩ lst_cut with
  | false => rfl
  | true =>
    have h2 := (is_ring_good_eq_true_iff _ _ _).mp h
    exact absurd h2.2.2.2.1 (by norm_num)

lemma good_tel_process :
    process_telescope cex_ext 1 2 generate_muon_cuts_by_telescope_name good_tel =
      .ok (some
        { MuonRingParams := ⟨0, 0, 1⟩
          tel_id := 7
          obs_id := 1
          event_id := 2
          ring_containment := 0
          mirror_radius := 6
          MuonIntensityParams := none
          muon_found := none }) := by
  have hlook : generate_muon_cuts_by_telescope_name.lookup good_tel.name = some lst_cut := rfl
  have hclean : cex_ext.tailcuts_clean good_tel good_tel.image
      lst_cut.tail_cuts.picture_thresh lst_cut.tail_cuts.boundary_thresh = [true] := rfl
  have hproj : orchestrator_projection cex_ext good_tel.pix_x good_tel.pix_y
      good_tel.foc_len = ([(0:ℝ)], [(0:ℝ)]) := proj_zero
  have hmulti : do_multi_ring_fit cex_ext.muon_ring_fit [(0:ℝ)] [(0:ℝ)]
      good_tel.image [true] = (⟨0, 0, 1⟩, [false]) := good_multi_fit
  unfold process_telescope
  rw [hlook]
  dsimp only
  rw [hclean, hproj]
  dsimp only
  rw [hmulti]
  dsimp only
  rw [gate_false_unit_ring]
  rfl

lemma bad_tel_process :
    process_telescope cex_ext 1 2 generate_muon_cuts_by_telescope_name bad_tel =
      .error (.keyError "NO_SUCH_TEL") := rfl

/-- C6 (amended): an error raised while processing one telescope propagates
out of the per-event loop: the loop aborts, and no records at all are returned
for that event — in particular none for sibling telescopes later in the
iteration order. -/
theorem telescope_error_aborts_event (ext : Externals) (obs_id event_id : ℕ)
    (cfg : List (String × MuonCut)) (tel : TelescopeData) (ts : List TelescopeData)
    (e : PyErr) (h : process_telescope ext obs_id event_id cfg tel = .error e) :
    analyze_loop ext obs_id event_id cfg (tel :: ts) = .error e := by
  simp [analyze_loop, h]

/-- Witness for telescope_error_aborts_event: the telescope with an unknown
configuration key raises KeyError and the loop over it and a healthy sibling
aborts with that error. -/
theorem telescope_error_aborts_event_witness :
    process_telescope cex_ext 1 2 generate_muon_cuts_by_telescope_name bad_tel =
      .error (.keyError "NO_SUCH_TEL") ∧
    analyze_loop cex_ext 1 2 generate_muon_cuts_by_telescope_name [bad_tel, good_tel] =
      .error (.keyError "NO_SUCH_TEL") :=
  ⟨bad_tel_process,
   telescope_error_aborts_event cex_ext 1 2 generate_muon_cuts_by_telescope_name
     bad_tel [good_tel] (.keyError "NO_SUCH_TEL") bad_tel_process⟩

/-- C6 (counterexample): a missing configuration key for the first telescope
makes `analyze_muon_event` return that error and nothing else, although the
sibling telescope on its own produces a perfectly good record: the error
aborts processing of siblings, contrary to the claim. -/
theorem config_error_aborts_siblings :
    analyze_muon_event cex_ext
        { obs_id := 1, event_id := 2, tels := [bad_tel, good_tel] } =
      .error (.keyError "NO_SUCH_TEL") ∧
    analyze_muon_event cex_ext { obs_id := 1, event_id := 2, tels := [good_tel] } =
      .ok [{ MuonRingParams := ⟨0, 0, 1⟩
             tel_id := 7
             obs_id := 1
             event_id := 2
             ring_containment := 0
             mirror_radius := 6
             MuonIntensityParams := none
             muon_found := none }] := by
  constructor
  · simp only [analyze_muon_event, analyze_loop, bad_tel_process]
  · simp only [analyze_muon_event, analyze_loop, good_tel_process]

/-- C7: a telescope whose cleaning mask selects zero pixels produces no record
and no error — `process_telescope` returns `ok none`, and the event loop over
it continues exactly as if the telescope were absent, distinguishable from the
`keyError`/fit-failure outcomes which are `Except.error` values. -/
theorem empty_clean_mask_emits_nothing (ext : Externals) (obs_id event_id : ℕ)
    (cfg : List (String × MuonCut)) (tel : TelescopeData) (cut : MuonCut)
    (ts : List TelescopeData)
    (hcut : cfg.lookup tel.name = some cut)
    (hmask : (ext.tailcuts_clean tel tel.image cut.tail_cuts.picture_thresh
        cut.tail_cuts.boundary_thresh).any (fun b => b) = false) :
    process_telescope ext obs_id event_id cfg tel = .ok none ∧
    analyze_loop ext obs_id event_id cfg (tel :: ts) =
      analyze_loop ext obs_id event_id cfg ts := by
  have h1 : process_telescope ext obs_id event_id cfg tel = .ok none := by
    unfold process_telescope
    rw [hcut]
    dsimp only
    rw [hmask]
    rfl
  exact ⟨h1, by simp [analyze_loop, h1]⟩

/-- Witness for empty_clean_mask_emits_nothing: a telescope with no pixel data
has an empty (all-false) cleaning mask, is skipped without a record or an
error, and the loop continues. -/
theorem empty_clean_mask_emits_nothing_witness :
    generate_muon_cuts_by_telescope_name.lookup empty_tel.name = some lst_cut ∧
    (cex_ext.tailcuts_clean empty_tel empty_tel.image lst_cut.tail_cuts.picture_thresh
        lst_cut.tail_cuts.boundary_thresh).any (fun b => b) = false ∧
    (process_telescope cex_ext 1 2 generate_muon_cuts_by_telescope_name empty_tel =
        .ok none ∧
      analyze_loop cex_ext 1 2 generate_muon_cuts_by_telescope_name [empty_tel] =
        analyze_loop cex_ext 1 2 generate_muon_cuts_by_telescope_name []) :=
  ⟨rfl, rfl,
   empty_clean_mask_emits_nothing cex_ext 1 2 generate_muon_cuts_by_telescope_name
     empty_tel lst_cut [] rfl rfl⟩

/-- C8 (amended): the orchestrator's projection step runs the transform with
`fast_but_bad=True` (the fast small-angle mode), and in that mode the FIRST
returned coordinate list is the degree conversion of y/focal_length (delta_az)
while the SECOND is that of x/focal_length (delta_alt) — the components are
swapped relative to the claim's (x_angle, y_angle) reading. -/
theorem fast_projection_formula (ext : Externals) (x y : List ℝ) (foc_len : ℝ) :
    orchestrator_projection ext x y foc_len =
      (y.map (fun v => rad2deg (v / foc_len)), x.map (fun v => rad2deg (v / foc_len))) := rfl

/-- C8 (counterexample): at pixel (x, y) = (1, 2) with focal length 1, the
fast transform returns (rad2deg 2, rad2deg 1), which is NOT the claimed
(rad2deg (x/f), rad2deg (y/f)) = (rad2deg 1, rad2deg 2). -/
theorem fast_projection_swap_cex :
    transform_pixel_coords_from_meter_to_deg [1] [2] 1 true cex_exact_mode =
      ([rad2deg 2], [rad2deg 1]) ∧
    transform_pixel_coords_from_meter_to_deg [1] [2] 1 true cex_exact_mode ≠
      ([rad2deg 1], [rad2deg 2]) := by
  have h1 : transform_pixel_coords_from_meter_to_deg [1] [2] 1 true cex_exact_mode =
      ([rad2deg 2], [rad2deg 1]) := by
    simp [transform_pixel_coords_from_meter_to_deg]
  refine ⟨h1, ?_⟩
  rw [h1]
  intro h
  have h2 : rad2deg 2 = rad2deg 1 := by
    have h3 := congrArg (fun p => p.1) h
    simpa using h3
  unfold rad2deg at h2
  have hpi : (180 : ℝ) / Real.pi ≠ 0 := div_ne_zero (by norm_num) Real.pi_ne_zero
  have h4 : (2 : ℝ) = 1 := mul_right_cancel₀ hpi h2
  norm_num at h4

end MuonRec
